import Mathlib

/-!
# Verification of the `git-wt` branch-to-worktree resolution engine

Shallow embedding of `src/main.rs` of the `git-wt` repository: the worktree
inventory query (`get_all_worktrees`), the branch resolver
(`find_worktree_path`), the current-worktree detection
(`get_current_worktree_branch`) and the lifecycle orchestrators
(`clone_bare_for_worktrees`, `add_worktree`, `remove_worktree`,
`switch_to_worktree`, `pull_worktree`).

External collaborators are modelled as explicit inputs:
* subprocess invocations that only *observe* state (`Command::output()`) are
  inputs of type `CmdOutput` / `Except Unit Bool` (spawn failure vs. captured
  exit status and stdout);
* the `nucleo_matcher` fuzzy scorer is an abstract function
  `String → Option Nat` (the Rust code receives `Option<u16>`; only the order
  of scores matters);
* the `inquire` select / confirm prompts are inputs describing the user's
  answer;
* the process's current directory and `Path::canonicalize` are explicit
  inputs, following the design note of the specification.

State-mutating subprocess invocations (`run_command`), prompts shown and
lines printed are recorded in an event trace (`Event`, `Exec`), so that
claims about ordering ("confirm before removal"), absence of side effects on
cancellation, and the `CD:` stdout protocol can be stated and proved.
-/

/-! ## String helpers (models of the Rust `str` methods used by main.rs) -/

/-- Model of Rust `str::starts_with` (operating on characters). -/
def strStartsWith (pre s : String) : Bool :=
  pre.data.isPrefixOf s.data

/-- Model of Rust `str::strip_prefix(p).unwrap()` for a prefix of `n`
characters: drop the first `n` characters. -/
def strDropChars (n : Nat) (s : String) : String :=
  ⟨s.data.drop n⟩

/-- One step of Rust `str::trim_start_matches`: repeatedly strip the pattern
from the front as long as it is a (non-empty) prefix.  The fuel is bounded by
the length of the string: every successful strip removes at least one
character. -/
def trimStartMatchesAux (pat : List Char) : Nat → List Char → List Char
  | 0, s => s
  | fuel + 1, s =>
    if !pat.isEmpty && pat.isPrefixOf s then
      trimStartMatchesAux pat fuel (s.drop pat.length)
    else s

/-- Model of Rust `str::trim_start_matches(pat)`. -/
def trim_start_matches (pat s : String) : String :=
  ⟨trimStartMatchesAux pat.data s.data.length s.data⟩

/-- Model of Rust `str::trim_end_matches(pat)`: repeatedly strip the pattern
from the end, implemented by stripping the reversed pattern from the front of
the reversed string. -/
def trim_end_matches (pat s : String) : String :=
  ⟨(trimStartMatchesAux pat.data.reverse s.data.length s.data.reverse).reverse⟩

/-- Model of Rust `url.rsplit('/').next()`: the part of the string after the
last `/` (the whole string when there is no `/`).  On a `char` pattern,
`rsplit(..).next()` always yields `Some`, so the `Invalid URL` branch of the
source is unreachable and not modelled. -/
def lastSlashComponent (url : String) : String :=
  (url.splitOn "/").getLastD ""

/-- Model of `PathBuf::join` for the way main.rs uses it: `root.join(branch)`
with a relative branch name. -/
def pathJoin (a b : String) : String := a ++ "/" ++ b

/-! ## Worktree inventory (`get_all_worktrees`, main.rs lines 357-388) -/

/-- A worktree record as produced by the inventory: `(branch, path)`. -/
abbrev Worktree := String × String

/-- Observable outcome of running `git worktree list --porcelain` via
`Command::output()`: either the process could not be spawned, or it ran with
the given exit-status success flag and captured stdout (already split into
lines, as `str::lines` does). -/
inductive CmdOutput where
  | spawnErr
  | ran (success : Bool) (stdoutLines : List String)
deriving DecidableEq

/-- The parsing loop of `get_all_worktrees`: a `worktree <path>` line opens a
record, a `branch <ref>` line (stripped of `refs/heads/`) closes it;
`current_worktree_path.take()` resets the open record after every `branch`
line. -/
def parseWorktreeLines : List String → Option String → List Worktree
  | [], _ => []
  | line :: rest, cur =>
    if strStartsWith "worktree " line then
      parseWorktreeLines rest (some (strDropChars 9 line))
    else if strStartsWith "branch " line then
      let branchName := trim_start_matches "refs/heads/" (strDropChars 7 line)
      match cur with
      | some path => (branchName, path) :: parseWorktreeLines rest none
      | none => parseWorktreeLines rest none
    else
      parseWorktreeLines rest cur

/-- `get_all_worktrees` (main.rs lines 357-388).  A spawn failure of the
listing command is an error (the `.context(..)?` in the source); a run that
exits unsuccessfully returns `Ok(Vec::new())`; a successful run parses the
porcelain output. -/
def get_all_worktrees (r : CmdOutput) : Except Unit (List Worktree) :=
  match r with
  | .spawnErr => .error ()
  | .ran success lines =>
    if success then .ok (parseWorktreeLines lines none) else .ok []

/-! ## Stable descending sort (`scored.sort_by(|a, b| b.0.cmp(&a.0))`) -/

/-- A fuzzy-scored candidate, as in the source: `(score, branch, path)`. -/
abbrev Scored := Nat × String × String

/-- Insertion step of the stable sort: `x` (earlier in the original list) is
placed before the first element whose score is `≤` its own, so equal scores
keep their original relative order.  Together with `sortScoredDesc` this is
the semantics of Rust's stable `sort_by(|a, b| b.0.cmp(&a.0))`. -/
def insertScored (x : Scored) : List Scored → List Scored
  | [] => [x]
  | y :: ys => if y.1 ≤ x.1 then x :: y :: ys else y :: insertScored x ys

/-- Stable sort, descending by score. -/
def sortScoredDesc : List Scored → List Scored
  | [] => []
  | x :: xs => insertScored x (sortScoredDesc xs)

/-- The scored-candidate list built by the fuzzy pass (main.rs lines
414-421): every record whose branch receives a score becomes a candidate, in
inventory order. -/
def scoredOf (score : String → Option Nat) (worktrees : List Worktree) :
    List Scored :=
  worktrees.filterMap fun wp => (score wp.1).map fun s => (s, wp.1, wp.2)

/-! ## Branch resolver core (`find_worktree_path`, main.rs lines 390-457) -/

/-- The user's answer to the `Select::prompt_skippable()` call:
`chosen` is `Ok(Some(..))`, `skipped` is `Ok(None)` (Esc),
`promptErr` is `Err(..)`.  The source treats the latter two identically. -/
inductive SelectOutcome where
  | chosen (s : String)
  | skipped
  | promptErr
deriving DecidableEq

/-- Result value of the resolver: `ret p` models `return Ok(p)`,
`cancelledExit` models the `process::exit(0)` taken when the select prompt is
cancelled. -/
inductive ResolveOutcome where
  | ret (p : Option String)
  | cancelledExit
deriving DecidableEq

/-- Resolver result together with observation flags: `promptedWith` is the
list of branch names shown by the select prompt (`none` when no prompt was
shown) and `usedFuzzy` records whether the fuzzy pass was entered. -/
structure ResolveResult where
  outcome : ResolveOutcome
  promptedWith : Option (List String)
  usedFuzzy : Bool
deriving DecidableEq

/-- The `options` list built before prompting (main.rs lines 433-436):
`(branch, path)` of every sorted candidate. -/
def optionsOf (l : List Scored) : List (String × String) :=
  l.map fun t => (t.2.1, t.2.2)

/-- The `branch_names` labels handed to the select prompt (main.rs line 437). -/
def branchNamesOf (l : List Scored) : List String :=
  (optionsOf l).map fun o => o.1

/-- Pure core of `find_worktree_path`, given the already-queried inventory:
empty-inventory check, exact pass, fuzzy pass, stable descending sort,
single-candidate shortcut, interactive disambiguation. -/
def resolveCore (score : String → Option Nat) (sel : SelectOutcome)
    (worktrees : List Worktree) (branch : String) : ResolveResult :=
  if worktrees.isEmpty then ⟨.ret none, none, false⟩
  else
    match worktrees.find? (fun wp => wp.1 == branch) with
    | some wp => ⟨.ret (some wp.2), none, false⟩
    | none =>
      if (scoredOf score worktrees).isEmpty then ⟨.ret none, none, true⟩
      else
        match sortScoredDesc (scoredOf score worktrees) with
        | [] => ⟨.ret none, none, true⟩
        | [single] => ⟨.ret (some single.2.2), none, true⟩
        | t1 :: t2 :: rest =>
          match sel with
          | .chosen selected =>
            match (optionsOf (t1 :: t2 :: rest)).find? (fun o => o.1 == selected) with
            | some o => ⟨.ret (some o.2), some (branchNamesOf (t1 :: t2 :: rest)), true⟩
            | none => ⟨.ret none, some (branchNamesOf (t1 :: t2 :: rest)), true⟩
          | .skipped => ⟨.cancelledExit, some (branchNamesOf (t1 :: t2 :: rest)), true⟩
          | .promptErr => ⟨.cancelledExit, some (branchNamesOf (t1 :: t2 :: rest)), true⟩

/-! ## Event traces and the process environment -/

/-- A state-mutating VCS invocation made through `run_command`: the argument
list passed to `git` and the optional working directory. -/
structure GitCmd where
  args : List String
  cwd : Option String
deriving DecidableEq

/-- Observable events of one command execution, in order: `runGit` is a
`run_command` invocation, `promptSelect`/`promptConfirm` are interactive
prompts being shown, `stdoutLine` is a `println!`, `stderrLine` an
`eprintln!`/`log_info`, `errorMsg` a `log_error`. -/
inductive Event where
  | runGit (cmd : GitCmd)
  | promptSelect (names : List String)
  | promptConfirm
  | stdoutLine (s : String)
  | stderrLine (s : String)
  | errorMsg (s : String)
deriving DecidableEq

/-- How the embedded function finished: `retOk` models `return Ok(())`,
`exited c` models `process::exit(c)`, `errored` models returning `Err(..)`
(propagated by `?` to `main`). -/
inductive FinalResult where
  | retOk
  | exited (code : Nat)
  | errored
deriving DecidableEq

/-- An execution trace: the events in order, and how the run finished. -/
structure Exec where
  events : List Event
  result : FinalResult
deriving DecidableEq

/-- Outcome of one `run_command` invocation: the spawned process succeeded,
it ran but exited non-zero (`log_error("Command failed"); exit(1)`), or it
could not be spawned (`Err` propagated by `?`). -/
inductive RunOutcome where
  | ok
  | failed
  | spawnErr
deriving DecidableEq

/-- `run_command` (main.rs lines 172-190) in continuation style: record the
invocation, then either continue with `k`, or abort with exit code 1, or
propagate the spawn error. -/
def run_command (cmd : GitCmd) (out : RunOutcome) (evs : List Event)
    (k : List Event → Exec) : Exec :=
  match out with
  | .ok => k (evs ++ [.runGit cmd])
  | .failed => ⟨evs ++ [.runGit cmd, .errorMsg "Command failed"], .exited 1⟩
  | .spawnErr => ⟨evs ++ [.runGit cmd], .errored⟩

/-- Outcome of `get_worktree_root` (main.rs lines 255-277), abstracted to the
three ways it can end: spawn error (`Err`), unsuccessful `rev-parse`
(`log_error; exit(1)`), or the computed root directory. -/
inductive RootOutcome where
  | spawnErr
  | failed
  | ok (root : String)
deriving DecidableEq

/-- All external inputs of one invocation, gathered in one record.  Each
embedded function reads only the fields describing the collaborators it
actually consults:
* `repoCheck`: the `git rev-parse --git-dir` probe of `check_git_repo`
  (`error` = spawn failure, `ok b` = exit-status success flag);
* `wlist`: the `git worktree list --porcelain` output (the repository is not
  mutated between the at most two queries of one invocation);
* `cwdCanon`: `std::env::current_dir()?.canonicalize()?`;
* `canon`: `PathBuf::canonicalize` on worktree paths (`none` = `Err`);
* `score`: the `nucleo_matcher` score of the query pattern against a branch;
* `sel`: the user's answer to the select prompt;
* `confirm`: the answer to `Confirm::prompt_skippable` (`error` = `Err`,
  `ok none` = Esc, `ok (some b)` = yes/no);
* `root`: the `get_worktree_root` outcome;
* `pathExists`: `Path::exists` on the candidate worktree path;
* `branchProbe` / `baseProbe`: the two `git rev-parse --verify` existence
  probes of `add_worktree`;
* `createDirErr`: `fs::create_dir` outcome for `clone` (`some e` = error);
* `writeGitFileOk`: whether `fs::write` of the `.git` pointer file succeeds;
* `run1`/`run2`/`run3`: outcomes of the successive `run_command` calls of
  the invoked operation (only `clone` makes more than one). -/
structure Env where
  repoCheck : Except Unit Bool
  wlist : CmdOutput
  cwdCanon : Except Unit String
  canon : String → Option String
  score : String → Option Nat
  sel : SelectOutcome
  confirm : Except Unit (Option Bool)
  root : RootOutcome
  pathExists : String → Bool
  branchProbe : Except Unit Bool
  baseProbe : Except Unit Bool
  createDirErr : Option String
  writeGitFileOk : Bool
  run1 : RunOutcome
  run2 : RunOutcome
  run3 : RunOutcome

/-- The `.map(|output| output.status.success()).unwrap_or(false)` pattern of
the existence probes in `add_worktree`: a spawn failure and a non-zero exit
are both just "does not exist", never an error. -/
def probeBool : Except Unit Bool → Bool
  | .ok b => b
  | .error _ => false

/-! ## Resolver with trace (`find_worktree_path`, main.rs lines 390-457) -/

/-- Resolver step result seen by the orchestrators: the inventory query
failed (`Err` propagated), the user cancelled (`process::exit(0)`), or the
function returned `Ok(p)`. -/
inductive ResolveStep where
  | failedQuery
  | cancelled
  | ret (p : Option String)
deriving DecidableEq

/-- `find_worktree_path`, with its event trace: queries the inventory, runs
the pure resolver core, and records the `matches multiple worktrees` notice,
the select prompt and the `Cancelled.` notice. -/
def find_worktree_path (env : Env) (branch : String) :
    ResolveStep × List Event :=
  match get_all_worktrees env.wlist with
  | .error _ => (.failedQuery, [])
  | .ok wts =>
    match (resolveCore env.score env.sel wts branch).promptedWith with
    | none =>
      match (resolveCore env.score env.sel wts branch).outcome with
      | .ret p => (.ret p, [])
      | .cancelledExit => (.cancelled, [])
    | some names =>
      match (resolveCore env.score env.sel wts branch).outcome with
      | .ret p =>
        (.ret p, [Event.stderrLine ("'" ++ branch ++ "' matches multiple worktrees."),
                  Event.promptSelect names])
      | .cancelledExit =>
        (.cancelled, [Event.stderrLine ("'" ++ branch ++ "' matches multiple worktrees."),
                      Event.promptSelect names, Event.stderrLine "Cancelled."])

/-! ## Current-worktree detection (main.rs lines 459-473) -/

/-- `get_current_worktree_branch`, with the ambient state (current directory,
`canonicalize`) passed in explicitly: return the branch of the first record
whose canonicalized path equals the canonicalized current directory; records
whose path fails to canonicalize are skipped. -/
def get_current_worktree_branch (canon : String → Option String)
    (cwd : String) : List Worktree → Option String
  | [] => none
  | wp :: rest =>
    match canon wp.2 with
    | some p =>
      if p = cwd then some wp.1
      else get_current_worktree_branch canon cwd rest
    | none => get_current_worktree_branch canon cwd rest

/-- The shared "default branch" step of `rm`/`pull` with no explicit branch:
canonicalize the current directory (`Err` propagates), query the inventory
(`Err` propagates), detect the current worktree's branch, and fail with exit
code 1 if there is none. -/
def currentBranchStep (env : Env) : Except Exec String :=
  match env.cwdCanon with
  | .error _ => .error ⟨[], .errored⟩
  | .ok cwd =>
    match get_all_worktrees env.wlist with
    | .error _ => .error ⟨[], .errored⟩
    | .ok wts =>
      match get_current_worktree_branch env.canon cwd wts with
      | some b => .ok b
      | none =>
        .error ⟨[.errorMsg "Could not determine current worktree branch"], .exited 1⟩

/-! ## Lifecycle orchestrators -/

/-- `switch_to_worktree` (main.rs lines 522-533).  `check_git_repo` is
inlined as the match on `repoCheck`. -/
def switch_to_worktree (env : Env) (branch : String) : Exec :=
  match env.repoCheck with
  | .error _ => ⟨[], .errored⟩
  | .ok false => ⟨[.errorMsg "Not in a git repository"], .exited 1⟩
  | .ok true =>
    match find_worktree_path env branch with
    | (.failedQuery, evs) => ⟨evs, .errored⟩
    | (.cancelled, evs) => ⟨evs, .exited 0⟩
    | (.ret none, evs) =>
      ⟨evs ++ [.errorMsg ("Worktree for branch '" ++ branch ++ "' not found.")], .exited 1⟩
    | (.ret (some path), evs) =>
      ⟨evs ++ [.stdoutLine ("CD:" ++ path)], .retOk⟩

/-- The part of `remove_worktree` after the branch has been determined
(main.rs lines 490-519): resolution, mandatory confirmation, then
`git worktree remove` (with `--force` appended when requested). -/
def remove_worktree_resolved (env : Env) (branch : String) (force : Bool) :
    Exec :=
  match find_worktree_path env branch with
  | (.failedQuery, evs) => ⟨evs, .errored⟩
  | (.cancelled, evs) => ⟨evs, .exited 0⟩
  | (.ret none, evs) =>
    ⟨evs ++ [.errorMsg ("Worktree for branch '" ++ branch ++ "' not found")], .exited 1⟩
  | (.ret (some path), evs) =>
    match env.confirm with
    | .ok (some true) =>
      run_command ⟨["worktree", "remove"] ++ (if force then ["--force"] else []) ++ [path],
                   none⟩ env.run1 (evs ++ [Event.promptConfirm])
        (fun evs2 => ⟨evs2 ++ [.stderrLine ("Worktree '" ++ branch ++ "' removed.")], .retOk⟩)
    | _ => ⟨evs ++ [Event.promptConfirm], .exited 0⟩

/-- `remove_worktree` (main.rs lines 475-520): repository check, default
branch, then `remove_worktree_resolved`. -/
def remove_worktree (env : Env) (branchArg : Option String) (force : Bool) :
    Exec :=
  match env.repoCheck with
  | .error _ => ⟨[], .errored⟩
  | .ok false => ⟨[.errorMsg "Not in a git repository"], .exited 1⟩
  | .ok true =>
    match branchArg with
    | some b => remove_worktree_resolved env b force
    | none =>
      match currentBranchStep env with
      | .error e => e
      | .ok b => remove_worktree_resolved env b force

/-- The part of `pull_worktree` after the branch has been determined
(main.rs lines 550-564). -/
def pull_worktree_resolved (env : Env) (branch : String) : Exec :=
  match find_worktree_path env branch with
  | (.failedQuery, evs) => ⟨evs, .errored⟩
  | (.cancelled, evs) => ⟨evs, .exited 0⟩
  | (.ret none, evs) =>
    ⟨evs ++ [.errorMsg ("Worktree for branch '" ++ branch ++ "' not found")], .exited 1⟩
  | (.ret (some path), evs) =>
    run_command ⟨["pull"], some path⟩ env.run1
      (evs ++ [.stderrLine ("Pulling changes in worktree '" ++ branch ++ "'...")])
      (fun evs2 => ⟨evs2 ++ [.stderrLine "Pull completed."], .retOk⟩)

/-- `pull_worktree` (main.rs lines 535-565). -/
def pull_worktree (env : Env) (branchArg : Option String) : Exec :=
  match env.repoCheck with
  | .error _ => ⟨[], .errored⟩
  | .ok false => ⟨[.errorMsg "Not in a git repository"], .exited 1⟩
  | .ok true =>
    match branchArg with
    | some b => pull_worktree_resolved env b
    | none =>
      match currentBranchStep env with
      | .error e => e
      | .ok b => pull_worktree_resolved env b

/-- `add_worktree` (main.rs lines 279-355): repository check, worktree root,
collision check, the two non-escalating existence probes, then exactly one
`git worktree add` whose arguments follow the fallback chain: reuse the local
branch; else branch from the base ref (`--from` override or
`origin/<branch>`); else branch from `HEAD` with an informational note. -/
def add_worktree (env : Env) (branch : String) (fromArg : Option String) :
    Exec :=
  match env.repoCheck with
  | .error _ => ⟨[], .errored⟩
  | .ok false => ⟨[.errorMsg "Not in a git repository"], .exited 1⟩
  | .ok true =>
    match env.root with
    | .spawnErr => ⟨[], .errored⟩
    | .failed => ⟨[.errorMsg "Not in a git repository"], .exited 1⟩
    | .ok root =>
      let worktree_path := pathJoin root branch
      if env.pathExists worktree_path then
        ⟨[.errorMsg ("Directory '" ++ worktree_path ++ "' already exists")], .exited 1⟩
      else
        let branch_exists := probeBool env.branchProbe
        let base_ref := fromArg.getD ("origin/" ++ branch)
        let base_ref_exists := probeBool env.baseProbe
        let evs := [Event.stderrLine ("Creating worktree '" ++ branch ++ "'...")]
        if branch_exists then
          run_command ⟨["worktree", "add", worktree_path, branch], none⟩ env.run1 evs
            (fun evs2 => ⟨evs2 ++ [.stderrLine "Worktree created."], .retOk⟩)
        else if base_ref_exists then
          run_command ⟨["worktree", "add", worktree_path, "-b", branch, base_ref], none⟩
            env.run1 evs
            (fun evs2 => ⟨evs2 ++ [.stderrLine "Worktree created."], .retOk⟩)
        else
          run_command ⟨["worktree", "add", worktree_path, "-b", branch, "HEAD"], none⟩
            env.run1
            (evs ++ [.stderrLine ("Note: " ++ base_ref ++ " doesn't exist, creating from HEAD")])
            (fun evs2 => ⟨evs2 ++ [.stderrLine "Worktree created."], .retOk⟩)

/-- `clone_bare_for_worktrees` (main.rs lines 192-232): derive the directory
name from the URL, create the directory, bare-clone into `.bare`, write the
`.git` pointer file, configure the fetch refspec, fetch.  The success path
prints nothing to stdout (the `CD:` print is commented out in the source). -/
def clone_bare_for_worktrees (env : Env) (url : String)
    (nameArg : Option String) : Exec :=
  let basename := lastSlashComponent url
  let default_name := trim_end_matches ".git" basename
  let dir_name := nameArg.getD default_name
  match env.createDirErr with
  | some e =>
    ⟨[.errorMsg ("Failed to create directory '" ++ dir_name ++ "': " ++ e)], .exited 1⟩
  | none =>
    run_command ⟨["clone", "--bare", url, ".bare"], some dir_name⟩ env.run1
      [.stderrLine ("Cloning " ++ url ++ " into " ++ dir_name ++ "/")]
      (fun evs1 =>
        if env.writeGitFileOk then
          run_command ⟨["config", "remote.origin.fetch",
                        "+refs/heads/*:refs/remotes/origin/*"], some dir_name⟩ env.run2 evs1
            (fun evs2 =>
              run_command ⟨["fetch", "origin"], some dir_name⟩ env.run3
                (evs2 ++ [.stderrLine "Fetching branches..."])
                (fun evs3 => ⟨evs3 ++ [.stderrLine "Repository cloned successfully."], .retOk⟩))
        else ⟨evs1, .errored⟩)

/-! ## Trace observations used by the claims -/

/-- The lines the program itself printed to standard output. -/
def stdoutOf : List Event → List String
  | [] => []
  | .stdoutLine s :: es => s :: stdoutOf es
  | _ :: es => stdoutOf es

/-- The state-mutating VCS invocations of a trace, in order. -/
def runGits : List Event → List GitCmd
  | [] => []
  | .runGit c :: es => c :: runGits es
  | _ :: es => runGits es

/-- Whether a select prompt was shown. -/
def hasSelect : List Event → Bool
  | [] => false
  | .promptSelect _ :: _ => true
  | _ :: es => hasSelect es

/-- Whether a confirmation prompt was shown. -/
def hasConfirm : List Event → Bool
  | [] => false
  | .promptConfirm :: _ => true
  | _ :: es => hasConfirm es

/-- The select prompt was cancelled: Esc (`Ok(None)`) or a prompt error. -/
def selCancelled : SelectOutcome → Bool
  | .chosen _ => false
  | .skipped => true
  | .promptErr => true

/-- The confirmation prompt was cancelled: Esc (`Ok(None)`) or a prompt
error (declining with "no" is a separate, non-cancel outcome). -/
def confirmCancelled : Except Unit (Option Bool) → Bool
  | .ok (some _) => false
  | .ok none => true
  | .error _ => true

/-! ## Concrete environments used by the witnesses -/

/-- Concrete environment: a repository at `/r` with a single worktree
`main` at `/r/main`; every probe and command succeeds. -/
def envBase : Env where
  repoCheck := .ok true
  wlist := .ran true ["worktree /r/main", "branch refs/heads/main"]
  cwdCanon := .ok "/r/main"
  canon := fun s => some s
  score := fun _ => none
  sel := .skipped
  confirm := .ok (some true)
  root := .ok "/r"
  pathExists := fun _ => false
  branchProbe := .ok true
  baseProbe := .ok true
  createDirErr := none
  writeGitFileOk := true
  run1 := .ok
  run2 := .ok
  run3 := .ok

/-- Environment where the user cancels (Esc) the confirmation prompt of
`rm`. -/
def envCancel : Env :=
  { envBase with confirm := Except.ok none }

/-- Environment where neither the local branch nor the base ref exists, so
`add` falls back to `HEAD` and emits the note. -/
def envAdd : Env :=
  { envBase with branchProbe := Except.ok false, baseProbe := Except.ok false }

/-- Environment where the current directory is a strict subdirectory of the
`main` worktree. -/
def envSub : Env :=
  { envBase with cwdCanon := Except.ok "/r/main/sub" }

/-! ## Lemmas about trace observations -/

theorem stdoutOf_append (a b : List Event) :
    stdoutOf (a ++ b) = stdoutOf a ++ stdoutOf b := by
  induction a with
  | nil => rfl
  | cons e es ih => cases e <;> simp [stdoutOf, ih]

theorem runGits_append (a b : List Event) :
    runGits (a ++ b) = runGits a ++ runGits b := by
  induction a with
  | nil => rfl
  | cons e es ih => cases e <;> simp [runGits, ih]

theorem hasConfirm_append (a b : List Event) :
    hasConfirm (a ++ b) = (hasConfirm a || hasConfirm b) := by
  induction a with
  | nil => rfl
  | cons e es ih => cases e <;> simp [hasConfirm, ih]

theorem hasSelect_append (a b : List Event) :
    hasSelect (a ++ b) = (hasSelect a || hasSelect b) := by
  induction a with
  | nil => rfl
  | cons e es ih => cases e <;> simp [hasSelect, ih]

/-! ## Lemmas about the stable descending sort -/

theorem mem_insertScored {x z : Scored} {l : List Scored} :
    z ∈ insertScored x l ↔ z = x ∨ z ∈ l := by
  induction l with
  | nil => simp [insertScored]
  | cons y ys ih =>
    by_cases h : y.1 ≤ x.1
    · simp [insertScored, h]
    · rw [insertScored, if_neg h]
      simp [ih, or_left_comm]

theorem pairwise_insertScored {x : Scored} {l : List Scored}
    (h : l.Pairwise fun a b => b.1 ≤ a.1) :
    (insertScored x l).Pairwise fun a b => b.1 ≤ a.1 := by
  induction l with
  | nil => simp [insertScored]
  | cons y ys ih =>
    rw [List.pairwise_cons] at h
    by_cases hc : y.1 ≤ x.1
    · rw [insertScored, if_pos hc, List.pairwise_cons]
      refine ⟨?_, List.pairwise_cons.2 h⟩
      intro z hz
      rcases List.mem_cons.1 hz with hz | hz
      · exact hz ▸ hc
      · exact le_trans (h.1 z hz) hc
    · rw [insertScored, if_neg hc, List.pairwise_cons]
      refine ⟨?_, ih h.2⟩
      intro z hz
      rcases mem_insertScored.1 hz with hz | hz
      · exact hz ▸ le_of_lt (lt_of_not_le hc)
      · exact h.1 z hz

/-- The sorted candidate list is descending by score. -/
theorem sortScoredDesc_pairwise (l : List Scored) :
    (sortScoredDesc l).Pairwise fun a b => b.1 ≤ a.1 := by
  induction l with
  | nil => exact List.Pairwise.nil
  | cons x xs ih => exact pairwise_insertScored ih

theorem filter_insertScored (x : Scored) (l : List Scored) (s : Nat) :
    (insertScored x l).filter (fun t => t.1 == s) =
      if x.1 = s then x :: l.filter (fun t => t.1 == s)
      else l.filter (fun t => t.1 == s) := by
  induction l with
  | nil =>
    by_cases hx : x.1 = s <;> simp [insertScored, List.filter_cons, hx]
  | cons y ys ih =>
    by_cases hc : y.1 ≤ x.1
    · rw [insertScored, if_pos hc]
      by_cases hx : x.1 = s <;> simp [List.filter_cons, hx]
    · rw [insertScored, if_neg hc, List.filter_cons, ih, List.filter_cons]
      by_cases hx : x.1 = s
      · have hy : ¬ y.1 = s := by omega
        simp [hx, hy]
      · by_cases hy : y.1 = s <;> simp [hx, hy]

/-- Stability of the sort: for every score, the candidates carrying that
score appear in the sorted list in exactly their original (inventory)
order. -/
theorem sortScoredDesc_filter (l : List Scored) (s : Nat) :
    (sortScoredDesc l).filter (fun t => t.1 == s) =
      l.filter (fun t => t.1 == s) := by
  induction l with
  | nil => rfl
  | cons x xs ih =>
    rw [sortScoredDesc, filter_insertScored, ih, List.filter_cons]
    by_cases hx : x.1 = s <;> simp [hx]

/-! ## Lemmas about the resolver -/

/-- If the select prompt was shown and the user cancelled it, the resolver
takes the `process::exit(0)` branch. -/
theorem resolveCore_prompt_cancel (score : String → Option Nat)
    (sel : SelectOutcome) (worktrees : List Worktree) (branch : String)
    (names : List String) (hs : selCancelled sel = true)
    (hp : (resolveCore score sel worktrees branch).promptedWith = some names) :
    (resolveCore score sel worktrees branch).outcome = .cancelledExit := by
  revert hp
  unfold resolveCore
  cases sel with
  | chosen s => simp [selCancelled] at hs
  | skipped =>
    split
    · simp
    · split
      · simp
      · split
        · simp
        · split <;> simp
  | promptErr =>
    split
    · simp
    · split
      · simp
      · split
        · simp
        · split <;> simp

/-- `find_worktree_path` makes no state-mutating VCS invocation. -/
theorem runGits_find (env : Env) (branch : String) :
    runGits (find_worktree_path env branch).2 = [] := by
  unfold find_worktree_path
  split
  · rfl
  · split
    · split <;> rfl
    · split <;> rfl

/-- `find_worktree_path` prints nothing to standard output. -/
theorem stdoutOf_find (env : Env) (branch : String) :
    stdoutOf (find_worktree_path env branch).2 = [] := by
  unfold find_worktree_path
  split
  · rfl
  · split
    · split <;> rfl
    · split <;> rfl

/-- `find_worktree_path` never shows a confirmation prompt. -/
theorem hasConfirm_find (env : Env) (branch : String) :
    hasConfirm (find_worktree_path env branch).2 = false := by
  unfold find_worktree_path
  split
  · rfl
  · split
    · split <;> rfl
    · split <;> rfl

/-- If the selection was cancelled and the select prompt appears in the
resolver's trace, the resolver ends in the cancelled exit. -/
theorem find_cancel_of_select (env : Env) (branch : String)
    (hs : selCancelled env.sel = true)
    (hp : hasSelect (find_worktree_path env branch).2 = true) :
    (find_worktree_path env branch).1 = .cancelled := by
  revert hp
  cases hw : get_all_worktrees env.wlist with
  | error e => simp [find_worktree_path, hw, hasSelect]
  | ok wts =>
    cases hpw : (resolveCore env.score env.sel wts branch).promptedWith with
    | none =>
      cases hout : (resolveCore env.score env.sel wts branch).outcome with
      | ret p => simp [find_worktree_path, hw, hpw, hout, hasSelect]
      | cancelledExit => simp [find_worktree_path, hw, hpw, hout]
    | some names =>
      cases hout : (resolveCore env.score env.sel wts branch).outcome with
      | ret p =>
        have hc := resolveCore_prompt_cancel env.score env.sel wts branch names hs hpw
        rw [hout] at hc
        cases hc
      | cancelledExit => simp [find_worktree_path, hw, hpw, hout]

/-- Characterization of `get_current_worktree_branch`: the branch of the
first record whose canonicalized path equals the canonicalized current
directory, and nothing otherwise. -/
theorem gcwb_eq_find (canon : String → Option String) (cwd : String)
    (l : List Worktree) :
    get_current_worktree_branch canon cwd l =
      (l.find? fun wp => canon wp.2 == some cwd).map (fun wp => wp.1) := by
  induction l with
  | nil => rfl
  | cons wp rest ih =>
    cases hc : canon wp.2 with
    | none => simp [get_current_worktree_branch, hc, List.find?_cons, ih]
    | some p =>
      by_cases hp : p = cwd <;>
        simp [get_current_worktree_branch, hc, List.find?_cons, hp, ih]

/-- When no record's canonicalized path equals the current directory (for
example when the current directory is a strict subdirectory of a worktree),
there is no current worktree branch. -/
theorem gcwb_eq_none (canon : String → Option String) (cwd : String)
    (l : List Worktree) (h : ∀ wp ∈ l, canon wp.2 ≠ some cwd) :
    get_current_worktree_branch canon cwd l = none := by
  rw [gcwb_eq_find, List.find?_eq_none.2, Option.map_none']
  intro wp hwp
  simp [h wp hwp]

/-- The shared default-branch step fails with the
`Could not determine current worktree branch` error when the current
directory matches no worktree exactly. -/
theorem currentBranchStep_err (env : Env) (cwd : String) (wts : List Worktree)
    (h2 : env.cwdCanon = .ok cwd) (h3 : get_all_worktrees env.wlist = .ok wts)
    (h4 : ∀ wp ∈ wts, env.canon wp.2 ≠ some cwd) :
    currentBranchStep env =
      .error ⟨[.errorMsg "Could not determine current worktree branch"], .exited 1⟩ := by
  simp [currentBranchStep, h2, h3, gcwb_eq_none env.canon cwd wts h4]

/-- The select prompt labels are exactly the branch names of the sorted
candidates. -/
theorem branchNamesOf_eq (l : List Scored) :
    branchNamesOf l = l.map fun t => t.2.1 := by
  simp [branchNamesOf, optionsOf, List.map_map, Function.comp]

/-! ## Claim C2 (inventory query errors) -/

/-- C2 counterexample: the claim says the inventory query fails with a
`QueryError` whenever the listing command cannot run *or the repository is
absent*.  But when `git worktree list` runs and exits unsuccessfully (which
is what happens outside a repository), `get_all_worktrees` returns
`Ok(Vec::new())` — it succeeds with an empty inventory. -/
theorem c2_counterexample :
    get_all_worktrees (.ran false []) = .ok [] ∧
    get_all_worktrees (.ran false []) ≠ .error () :=
  ⟨rfl, fun h => nomatch h⟩

/-- C2 (amended): the inventory query fails with a `QueryError` exactly when
the listing command cannot be spawned; when the command runs but exits
unsuccessfully (e.g. the repository is absent), the query succeeds with an
empty inventory. -/
theorem c2_query_error (lines : List String) :
    get_all_worktrees .spawnErr = .error () ∧
    get_all_worktrees (.ran false lines) = .ok [] :=
  ⟨rfl, rfl⟩

/-! ## Claim C3 (exact match always wins) -/

/-- C3: if any record's branch equals the query token exactly, resolution
returns the path of the first such record (`find?` order), with no prompt
shown (`promptedWith = none`) and without entering the fuzzy pass
(`usedFuzzy = false`), regardless of the other records, the scorer and the
prompt input. -/
theorem c3_exact_match_wins (score : String → Option Nat) (sel : SelectOutcome)
    (worktrees : List Worktree) (branch : String)
    (h : ∃ wp ∈ worktrees, wp.1 = branch) :
    ∃ wp, worktrees.find? (fun q => q.1 == branch) = some wp ∧ wp.1 = branch ∧
      resolveCore score sel worktrees branch = ⟨.ret (some wp.2), none, false⟩ := by
  have hne : worktrees.isEmpty = false := by
    rcases h with ⟨wp, hmem, _⟩
    cases worktrees
    · cases hmem
    · rfl
  have hfs : (worktrees.find? fun q => q.1 == branch).isSome := by
    rw [List.find?_isSome]
    rcases h with ⟨wp, hmem, heq⟩
    exact ⟨wp, hmem, by simp [heq]⟩
  rcases Option.isSome_iff_exists.1 hfs with ⟨wp, hfind⟩
  refine ⟨wp, hfind, ?_, ?_⟩
  · simpa using List.find?_some hfind
  · simp [resolveCore, hne, hfind]

/-- Witness for C3: a concrete inventory where `main` occurs twice and a
near-match (`dev`) is present; the first `main` record's path is returned. -/
theorem c3_witness :
    ∃ wp, (([("dev", "p0"), ("main", "p1"), ("main", "p2")] : List Worktree).find?
        (fun q => q.1 == "main")) = some wp ∧ wp.1 = "main" ∧
      resolveCore (fun _ => some 1) .skipped
        [("dev", "p0"), ("main", "p1"), ("main", "p2")] "main" =
        ⟨.ret (some wp.2), none, false⟩ :=
  c3_exact_match_wins _ _ _ _ ⟨("main", "p1"), by simp, rfl⟩

/-! ## Claim C7 (fuzzy candidate list: descending and stable) -/

/-- C7: whenever the resolver shows the disambiguation list, the labels are
the branch names of `sortScoredDesc` of the scored candidates; that list is
sorted in descending score order (`Pairwise`), and for every score value the
candidates carrying it appear in their original inventory order (the sort is
stable). -/
theorem c7_stable_sorted (score : String → Option Nat) (sel : SelectOutcome)
    (worktrees : List Worktree) (branch : String) (names : List String) (s : Nat)
    (h : (resolveCore score sel worktrees branch).promptedWith = some names) :
    names = (sortScoredDesc (scoredOf score worktrees)).map (fun t => t.2.1) ∧
    (sortScoredDesc (scoredOf score worktrees)).Pairwise (fun a b => b.1 ≤ a.1) ∧
    (sortScoredDesc (scoredOf score worktrees)).filter (fun t => t.1 == s) =
      (scoredOf score worktrees).filter (fun t => t.1 == s) := by
  refine ⟨?_, sortScoredDesc_pairwise _, sortScoredDesc_filter _ _⟩
  revert h
  unfold resolveCore
  split
  · simp
  · split
    · simp
    · split
      · simp
      · split
        · simp
        · simp
        · cases sel with
          | chosen selected =>
            intro h
            split at h
            · split at h <;> simp_all [branchNamesOf_eq]
            · simp_all [branchNamesOf_eq]
            · simp_all [branchNamesOf_eq]
          | skipped => intro h; simp_all [branchNamesOf_eq]
          | promptErr => intro h; simp_all [branchNamesOf_eq]

/-- Witness for C7: two candidates with equal score keep their inventory
order (`alpha` before `beta`) in the presented list. -/
theorem c7_witness :
    (["alpha", "beta"] : List String) =
        (sortScoredDesc (scoredOf (fun _ => some 5) [("alpha", "p1"), ("beta", "p2")])).map
          (fun t => t.2.1) ∧
    (sortScoredDesc (scoredOf (fun _ => some 5) [("alpha", "p1"), ("beta", "p2")])).Pairwise
        (fun a b => b.1 ≤ a.1) ∧
    (sortScoredDesc (scoredOf (fun _ => some 5) [("alpha", "p1"), ("beta", "p2")])).filter
        (fun t => t.1 == 5) =
      (scoredOf (fun _ => some 5) [("alpha", "p1"), ("beta", "p2")]).filter
        (fun t => t.1 == 5) :=
  c7_stable_sorted (fun _ => some 5) .skipped [("alpha", "p1"), ("beta", "p2")] "x"
    ["alpha", "beta"] 5 rfl

/-! ## Claim C8 (empty inventory / no positive score: not found, no prompt) -/

/-- C8: if the inventory is empty (the hypotheses are then vacuous), or no
record's branch equals the token and no record receives a fuzzy score,
resolution yields `Ok(None)` ("not found") and never shows a prompt. -/
theorem c8_not_found_no_prompt (score : String → Option Nat)
    (sel : SelectOutcome) (worktrees : List Worktree) (branch : String)
    (hex : ∀ wp ∈ worktrees, wp.1 ≠ branch)
    (hsc : ∀ wp ∈ worktrees, score wp.1 = none) :
    (resolveCore score sel worktrees branch).outcome = .ret none ∧
    (resolveCore score sel worktrees branch).promptedWith = none := by
  cases worktrees with
  | nil => exact ⟨rfl, rfl⟩
  | cons w ws =>
    have hne : (w :: ws).isEmpty = false := rfl
    have hfind : (w :: ws).find? (fun q => q.1 == branch) = none := by
      rw [List.find?_eq_none]
      intro wp hwp
      simp [hex wp hwp]
    have hscored : scoredOf score (w :: ws) = [] := by
      rw [scoredOf, List.filterMap_eq_nil_iff]
      intro wp hwp
      simp [hsc wp hwp]
    rw [resolveCore]
    simp [hne, hfind, hscored]

/-- Witness for C8: the specification's own example — branches `main` and
`develop`, token `zzz`, a scorer that matches nothing. -/
theorem c8_witness :
    (resolveCore (fun _ => none) .skipped [("main", "p"), ("develop", "q")]
        "zzz").outcome = .ret none ∧
    (resolveCore (fun _ => none) .skipped [("main", "p"), ("develop", "q")]
        "zzz").promptedWith = none :=
  c8_not_found_no_prompt _ _ _ _ (by decide) (fun wp _ => rfl)

/-! ## Claim C9 (current-worktree detection by exact canonical path) -/

/-- C9: with no explicit branch, `rm`/`pull` use
`get_current_worktree_branch`, which returns the branch of the first
inventory record whose canonicalized path equals the canonicalized current
directory exactly; when no record's canonicalized path equals it (for
example a current directory strictly inside a worktree), there is no match. -/
theorem c9_current_worktree (canon : String → Option String) (cwd : String)
    (l : List Worktree) :
    get_current_worktree_branch canon cwd l =
      (l.find? fun wp => canon wp.2 == some cwd).map (fun wp => wp.1) ∧
    ((∀ wp ∈ l, canon wp.2 ≠ some cwd) →
      get_current_worktree_branch canon cwd l = none) :=
  ⟨gcwb_eq_find canon cwd l, gcwb_eq_none canon cwd l⟩

/-- Witness for C9: a current directory strictly inside the `feature`
worktree is not an exact match, so no default branch is found. -/
theorem c9_witness :
    get_current_worktree_branch (fun s => some s) "/r/feature/sub"
      [("main", "/r/main"), ("feature", "/r/feature")] = none :=
  (c9_current_worktree (fun s => some s) "/r/feature/sub"
      [("main", "/r/main"), ("feature", "/r/feature")]).2 (by decide)

/-! ## Further lemmas for the orchestrator claims -/

/-- When the default-branch step fails, its trace shows no prompt and no
mutating command. -/
theorem currentBranchStep_error_flags (env : Env) (e : Exec)
    (h : currentBranchStep env = .error e) :
    hasSelect e.events = false ∧ hasConfirm e.events = false ∧
      runGits e.events = [] := by
  revert h
  unfold currentBranchStep
  split
  · intro h
    injection h with h
    subst h
    exact ⟨rfl, rfl, rfl⟩
  · split
    · intro h
      injection h with h
      subst h
      exact ⟨rfl, rfl, rfl⟩
    · split
      · intro h
        cases h
      · intro h
        injection h with h
        subst h
        exact ⟨rfl, rfl, rfl⟩

/-- `add_worktree` never prints to standard output: its `CD:` print is
commented out in the source. -/
theorem stdoutOf_add (env : Env) (branch : String) (fromArg : Option String) :
    stdoutOf (add_worktree env branch fromArg).events = [] := by
  simp only [add_worktree, run_command]
  repeat' split
  all_goals rfl

/-- `clone_bare_for_worktrees` never prints to standard output: its `CD:`
print is commented out in the source. -/
theorem stdoutOf_clone (env : Env) (url : String) (nameArg : Option String) :
    stdoutOf (clone_bare_for_worktrees env url nameArg).events = [] := by
  simp only [clone_bare_for_worktrees, run_command]
  repeat' split
  all_goals rfl

/-! ## Claim C1 (the `CD:` stdout protocol) -/

/-- C1 counterexample: the claim says every successful `switch`/`add`/`clone`
prints exactly one `CD:<path>` line to stdout.  But a successful `add`
prints nothing to stdout (the `CD:` print is commented out in main.rs line
352), so the claim fails on `add` (and likewise on `clone`). -/
theorem c1_counterexample :
    (add_worktree envBase "feat" none).result = .retOk ∧
    stdoutOf (add_worktree envBase "feat" none).events = [] :=
  ⟨rfl, rfl⟩

/-- C1 (amended): on a successful `switch` the program writes exactly one
line `CD:<resolved path>` to standard output and nothing else; successful
`add` and `clone` write nothing at all to standard output (their `CD:`
prints are disabled in the source). -/
theorem c1_stdout_protocol (envS envA envC : Env)
    (sbranch abranch url : String) (fromArg nameArg : Option String)
    (hS : (switch_to_worktree envS sbranch).result = .retOk) :
    (∃ p, stdoutOf (switch_to_worktree envS sbranch).events = ["CD:" ++ p]) ∧
    stdoutOf (add_worktree envA abranch fromArg).events = [] ∧
    stdoutOf (clone_bare_for_worktrees envC url nameArg).events = [] := by
  refine ⟨?_, stdoutOf_add _ _ _, stdoutOf_clone _ _ _⟩
  revert hS
  cases hr : envS.repoCheck with
  | error e => simp [switch_to_worktree, hr]
  | ok b =>
    cases b with
    | false => simp [switch_to_worktree, hr]
    | true =>
      cases hf : find_worktree_path envS sbranch with
      | mk step evs =>
        cases step with
        | failedQuery => simp [switch_to_worktree, hr, hf]
        | cancelled => simp [switch_to_worktree, hr, hf]
        | ret p =>
          cases p with
          | none => simp [switch_to_worktree, hr, hf]
          | some path =>
            intro _
            refine ⟨path, ?_⟩
            have hempty : stdoutOf evs = [] := by
              have h0 := stdoutOf_find envS sbranch
              rw [hf] at h0
              exact h0
            simp [switch_to_worktree, hr, hf, stdoutOf_append, hempty, stdoutOf]

/-- Witness for C1: in `envBase`, `switch main` resolves to `/r/main` and
prints exactly `CD:/r/main`; `add`/`clone` print nothing. -/
theorem c1_witness :
    (∃ p, stdoutOf (switch_to_worktree envBase "main").events = ["CD:" ++ p]) ∧
    stdoutOf (add_worktree envBase "feat" none).events = [] ∧
    stdoutOf (clone_bare_for_worktrees envBase "u/repo.git" none).events = [] :=
  c1_stdout_protocol envBase envBase envBase "main" "feat" "u/repo.git" none none rfl

/-! ## Claim C4 (cancellation: exit 0, no side effect) -/

/-- Cancel behaviour of the resolved part of `rm`: if the select prompt was
shown and cancelled, or the confirmation prompt was shown and cancelled, the
process exits with code 0 and no mutating VCS command was invoked. -/
theorem rm_resolved_cancel (env : Env) (b : String) (force : Bool)
    (h : (selCancelled env.sel = true ∧
            hasSelect (remove_worktree_resolved env b force).events = true) ∨
         (confirmCancelled env.confirm = true ∧
            hasConfirm (remove_worktree_resolved env b force).events = true)) :
    (remove_worktree_resolved env b force).result = .exited 0 ∧
    runGits (remove_worktree_resolved env b force).events = [] := by
  cases hf : find_worktree_path env b with
  | mk step evs =>
    have hrg : runGits evs = [] := by
      have h0 := runGits_find env b
      rw [hf] at h0
      exact h0
    have hcf : hasConfirm evs = false := by
      have h0 := hasConfirm_find env b
      rw [hf] at h0
      exact h0
    have hcanc : selCancelled env.sel = true → hasSelect evs = true →
        step = .cancelled := by
      intro h1 h2
      have h0 := find_cancel_of_select env b h1 (by rw [hf]; exact h2)
      rw [hf] at h0
      exact h0
    simp only [remove_worktree_resolved, hf] at h ⊢
    cases step with
    | failedQuery =>
      rcases h with ⟨h1, h2⟩ | ⟨h1, h2⟩
      · cases hcanc h1 h2
      · rw [hcf] at h2
        cases h2
    | cancelled => exact ⟨rfl, hrg⟩
    | ret p =>
      cases p with
      | none =>
        rcases h with ⟨h1, h2⟩ | ⟨h1, h2⟩
        · rw [hasSelect_append] at h2
          simp only [hasSelect, Bool.or_false] at h2
          cases hcanc h1 h2
        · rw [hasConfirm_append] at h2
          simp only [hasConfirm, Bool.or_false] at h2
          rw [hcf] at h2
          cases h2
      | some path =>
        cases hcon : env.confirm with
        | error e =>
          simp only [hcon] at h ⊢
          refine ⟨trivial, ?_⟩
          rw [runGits_append, hrg]
          rfl
        | ok ob =>
          cases ob with
          | none =>
            simp only [hcon] at h ⊢
            refine ⟨trivial, ?_⟩
            rw [runGits_append, hrg]
            rfl
          | some bb =>
            cases bb with
            | false =>
              simp only [hcon] at h ⊢
              refine ⟨trivial, ?_⟩
              rw [runGits_append, hrg]
              rfl
            | true =>
              simp only [hcon] at h
              rcases h with ⟨h1, h2⟩ | ⟨h1, h2⟩
              · cases hrun : env.run1 <;>
                  (simp only [run_command, hrun, hasSelect_append, hasSelect,
                              Bool.or_false] at h2
                   cases hcanc h1 h2)
              · simp [confirmCancelled] at h1

/-- C4: whenever the user cancels an interactive step of `rm` — the
disambiguation select during resolution, or the confirmation prompt — the
process terminates via `process::exit(0)` and performs zero state-mutating
VCS invocations.  (Not-found is `exited 1`, a distinct outcome.) -/
theorem c4_cancel_clean_exit (env : Env) (branchArg : Option String)
    (force : Bool)
    (h : (selCancelled env.sel = true ∧
            hasSelect (remove_worktree env branchArg force).events = true) ∨
         (confirmCancelled env.confirm = true ∧
            hasConfirm (remove_worktree env branchArg force).events = true)) :
    (remove_worktree env branchArg force).result = .exited 0 ∧
    runGits (remove_worktree env branchArg force).events = [] := by
  cases hr : env.repoCheck with
  | error e => simp [remove_worktree, hr, hasSelect, hasConfirm] at h
  | ok bb =>
    cases bb with
    | false => simp [remove_worktree, hr, hasSelect, hasConfirm] at h
    | true =>
      cases branchArg with
      | some b =>
        simp only [remove_worktree, hr] at h ⊢
        exact rm_resolved_cancel env b force h
      | none =>
        cases hcs : currentBranchStep env with
        | error e =>
          have hfl := currentBranchStep_error_flags env e hcs
          simp only [remove_worktree, hr, hcs] at h ⊢
          rcases h with ⟨h1, h2⟩ | ⟨h1, h2⟩
          · rw [hfl.1] at h2
            cases h2
          · rw [hfl.2.1] at h2
            cases h2
        | ok b =>
          simp only [remove_worktree, hr, hcs] at h ⊢
          exact rm_resolved_cancel env b force h

/-- Witness for C4: cancelling the `rm` confirmation exits with code 0 and
invokes no removal command. -/
theorem c4_witness :
    (remove_worktree envCancel (some "main") false).result = .exited 0 ∧
    runGits (remove_worktree envCancel (some "main") false).events = [] :=
  c4_cancel_clean_exit envCancel (some "main") false (Or.inr ⟨rfl, rfl⟩)

/-! ## Claim C5 (confirmation gates removal; --force only changes args) -/

/-- Confirm behaviour of the resolved part of `rm`: if any mutating command
ran, then the user answered yes to the confirmation, the trace is
`pre ++ [promptConfirm, runGit (worktree remove [--force] path)] ++ post`,
and before the confirmation there was no mutating command and no other
confirmation. -/
theorem rm_resolved_confirm (env : Env) (b : String) (force : Bool)
    (h : runGits (remove_worktree_resolved env b force).events ≠ []) :
    env.confirm = .ok (some true) ∧
    ∃ path pre post,
      (remove_worktree_resolved env b force).events =
        pre ++ [Event.promptConfirm,
                Event.runGit ⟨["worktree", "remove"] ++
                  (if force then ["--force"] else []) ++ [path], none⟩] ++ post ∧
      runGits pre = [] ∧ hasConfirm pre = false := by
  cases hf : find_worktree_path env b with
  | mk step evs =>
    have hrg : runGits evs = [] := by
      have h0 := runGits_find env b
      rw [hf] at h0
      exact h0
    have hcf : hasConfirm evs = false := by
      have h0 := hasConfirm_find env b
      rw [hf] at h0
      exact h0
    simp only [remove_worktree_resolved, hf] at h ⊢
    cases step with
    | failedQuery => exact absurd hrg h
    | cancelled => exact absurd hrg h
    | ret p =>
      cases p with
      | none => simp [runGits_append, hrg, runGits] at h
      | some path =>
        cases hcon : env.confirm with
        | error e =>
          simp only [hcon] at h
          simp [runGits_append, hrg, runGits] at h
        | ok ob =>
          cases ob with
          | none =>
            simp only [hcon] at h
            simp [runGits_append, hrg, runGits] at h
          | some bb =>
            cases bb with
            | false =>
              simp only [hcon] at h
              simp [runGits_append, hrg, runGits] at h
            | true =>
              simp only [hcon]
              refine ⟨trivial, path, evs, ?_⟩
              cases hrun : env.run1 with
              | ok =>
                refine ⟨[.stderrLine ("Worktree '" ++ b ++ "' removed.")],
                  ?_, hrg, hcf⟩
                simp only [run_command, hrun]
                simp
              | failed =>
                refine ⟨[.errorMsg "Command failed"], ?_, hrg, hcf⟩
                simp only [run_command, hrun]
                simp
              | spawnErr =>
                refine ⟨[], ?_, hrg, hcf⟩
                simp only [run_command, hrun]
                simp

/-- C5: in every `rm` invocation that actually performs a removal, the
confirmation prompt was shown before the removal command (no mutating
command precedes it), the user explicitly confirmed, and `--force` only adds
`--force` to the removal command's arguments — it does not bypass the
prompt. -/
theorem c5_confirm_gates_removal (env : Env) (branchArg : Option String)
    (force : Bool)
    (h : runGits (remove_worktree env branchArg force).events ≠ []) :
    env.confirm = .ok (some true) ∧
    ∃ path pre post,
      (remove_worktree env branchArg force).events =
        pre ++ [Event.promptConfirm,
                Event.runGit ⟨["worktree", "remove"] ++
                  (if force then ["--force"] else []) ++ [path], none⟩] ++ post ∧
      runGits pre = [] ∧ hasConfirm pre = false := by
  cases hr : env.repoCheck with
  | error e => simp [remove_worktree, hr, runGits] at h
  | ok bb =>
    cases bb with
    | false => simp [remove_worktree, hr, runGits] at h
    | true =>
      cases branchArg with
      | some b =>
        simp only [remove_worktree, hr] at h ⊢
        exact rm_resolved_confirm env b force h
      | none =>
        cases hcs : currentBranchStep env with
        | error e =>
          have hfl := currentBranchStep_error_flags env e hcs
          simp only [remove_worktree, hr, hcs] at h ⊢
          exact absurd hfl.2.2 h
        | ok b =>
          simp only [remove_worktree, hr, hcs] at h ⊢
          exact rm_resolved_confirm env b force h

/-- Witness for C5: in `envBase` the removal of `main` runs, and the trace
shows the confirmation immediately before the removal command. -/
theorem c5_witness :
    envBase.confirm = .ok (some true) ∧
    ∃ path pre post,
      (remove_worktree envBase (some "main") false).events =
        pre ++ [Event.promptConfirm,
                Event.runGit ⟨["worktree", "remove"] ++
                  (if false then ["--force"] else []) ++ [path], none⟩] ++ post ∧
      runGits pre = [] ∧ hasConfirm pre = false :=
  c5_confirm_gates_removal envBase (some "main") false (fun hc => nomatch hc)


/-! ## Claim C6 (add fallback chain; probes never escalate) -/

/-- C6: in `add` (repository present, root resolved, no path collision), if
the local branch ref exists the creation command reuses it; otherwise, if the
base ref (`--from` override, else `origin/<branch>`) exists, the creation
command branches from it; otherwise it branches from `HEAD` and the
informational note is emitted on stderr.  The probes are total
(`probeBool (Except.error ()) = false`): a probe that fails to run or exits
non-zero just means "does not exist" and the operation still proceeds to
exactly one creation command. -/
theorem c6_add_fallback (env : Env) (branch r : String) (fromArg : Option String)
    (h1 : env.repoCheck = .ok true) (h2 : env.root = .ok r)
    (h3 : env.pathExists (pathJoin r branch) = false) :
    (probeBool env.branchProbe = true →
      runGits (add_worktree env branch fromArg).events =
        [⟨["worktree", "add", pathJoin r branch, branch], none⟩]) ∧
    (probeBool env.branchProbe = false → probeBool env.baseProbe = true →
      runGits (add_worktree env branch fromArg).events =
        [⟨["worktree", "add", pathJoin r branch, "-b", branch,
           fromArg.getD ("origin/" ++ branch)], none⟩]) ∧
    (probeBool env.branchProbe = false → probeBool env.baseProbe = false →
      runGits (add_worktree env branch fromArg).events =
        [⟨["worktree", "add", pathJoin r branch, "-b", branch, "HEAD"], none⟩] ∧
      Event.stderrLine ("Note: " ++ fromArg.getD ("origin/" ++ branch) ++
          " doesn't exist, creating from HEAD") ∈
        (add_worktree env branch fromArg).events) ∧
    probeBool (Except.error ()) = false := by
  refine ⟨?_, ?_, ?_, rfl⟩
  · intro hb
    cases hrun : env.run1 <;>
      simp [add_worktree, run_command, h1, h2, h3, hb, hrun,
            runGits_append, runGits]
  · intro hb hb2
    cases hrun : env.run1 <;>
      simp [add_worktree, run_command, h1, h2, h3, hb, hb2, hrun,
            runGits_append, runGits]
  · intro hb hb2
    constructor
    · cases hrun : env.run1 <;>
        simp [add_worktree, run_command, h1, h2, h3, hb, hb2, hrun,
              runGits_append, runGits]
    · cases hrun : env.run1 <;>
        simp [add_worktree, run_command, h1, h2, h3, hb, hb2, hrun]

/-- Witness for C6 at a concrete environment (fallback to `HEAD`). -/
theorem c6_witness :
    (probeBool envAdd.branchProbe = true →
      runGits (add_worktree envAdd "feat" none).events =
        [⟨["worktree", "add", pathJoin "/r" "feat", "feat"], none⟩]) ∧
    (probeBool envAdd.branchProbe = false → probeBool envAdd.baseProbe = true →
      runGits (add_worktree envAdd "feat" none).events =
        [⟨["worktree", "add", pathJoin "/r" "feat", "-b", "feat",
           (none : Option String).getD ("origin/" ++ "feat")], none⟩]) ∧
    (probeBool envAdd.branchProbe = false → probeBool envAdd.baseProbe = false →
      runGits (add_worktree envAdd "feat" none).events =
        [⟨["worktree", "add", pathJoin "/r" "feat", "-b", "feat", "HEAD"], none⟩] ∧
      Event.stderrLine ("Note: " ++ (none : Option String).getD ("origin/" ++ "feat") ++
          " doesn't exist, creating from HEAD") ∈
        (add_worktree envAdd "feat" none).events) ∧
    probeBool (Except.error ()) = false :=
  c6_add_fallback envAdd "feat" "/r" none rfl rfl rfl

/-! ## Claim C10 (no default branch: exit 1, no prompt, no command) -/

/-- C10: when `rm` or `pull` is invoked without a branch inside a repository
and no inventory record's canonicalized path equals the canonicalized
current directory (e.g. the current directory is inside a worktree but not
at its root, or in the bare checkout), the command's entire trace is the
single error message with `process::exit(1)` — so no prompt was shown and no
mutating VCS command was invoked. -/
theorem c10_no_current_worktree (envR envP : Env) (force : Bool)
    (cwdR cwdP : String) (wtsR wtsP : List Worktree)
    (hR1 : envR.repoCheck = .ok true) (hR2 : envR.cwdCanon = .ok cwdR)
    (hR3 : get_all_worktrees envR.wlist = .ok wtsR)
    (hR4 : ∀ wp ∈ wtsR, envR.canon wp.2 ≠ some cwdR)
    (hP1 : envP.repoCheck = .ok true) (hP2 : envP.cwdCanon = .ok cwdP)
    (hP3 : get_all_worktrees envP.wlist = .ok wtsP)
    (hP4 : ∀ wp ∈ wtsP, envP.canon wp.2 ≠ some cwdP) :
    remove_worktree envR none force =
      ⟨[.errorMsg "Could not determine current worktree branch"], .exited 1⟩ ∧
    pull_worktree envP none =
      ⟨[.errorMsg "Could not determine current worktree branch"], .exited 1⟩ := by
  constructor
  · have hcs := currentBranchStep_err envR cwdR wtsR hR2 hR3 hR4
    simp [remove_worktree, hR1, hcs]
  · have hcs := currentBranchStep_err envP cwdP wtsP hP2 hP3 hP4
    simp [pull_worktree, hP1, hcs]

/-- Witness for C10 at a concrete environment. -/
theorem c10_witness :
    remove_worktree envSub none false =
      ⟨[.errorMsg "Could not determine current worktree branch"], .exited 1⟩ ∧
    pull_worktree envSub none =
      ⟨[.errorMsg "Could not determine current worktree branch"], .exited 1⟩ :=
  c10_no_current_worktree envSub envSub false "/r/main/sub" "/r/main/sub"
    [("main", "/r/main")] [("main", "/r/main")] rfl rfl rfl (by decide)
    rfl rfl rfl (by decide)
